import Mathlib

/-!
Verification of the Gem Trust Platform user-onboarding flow.

This file shallowly embeds the registration Lambda handler
(`gem-trust-platform-api/src/handlers/register-user.js`) and the front-end
session controller (`gem-trust-platform-web/lib/auth-context.js`) in Lean 4,
and proves the testable properties of the specification against the
embedding.

Modelling conventions:
- JavaScript field values that the handler inspects for truthiness are
  modelled by `JSVal` (undefined, string, or number); JS truthiness is
  `jsTruthy`.
- A thrown JS error is modelled by the `Except JSErr` monad; a `JSErr`
  carries the optional `code` and `message` properties that the handlers
  inspect.
- The external collaborators (Cognito, S3, DynamoDB) are modelled by an
  `ExtWorld` oracle giving each call's outcome; the handler records the
  calls it makes in a `Trace`.
- Regular-expression tests are translated to executable character-list
  predicates matching the same language.
-/

/-- A JavaScript value as far as the registration handler inspects it:
`undefined` (a missing JSON field), a string, or a number. -/
inductive JSVal where
  | undef
  | str (s : String)
  | num (n : Int)
deriving DecidableEq

/-- JavaScript truthiness for the values of `JSVal`: `undefined` and `0` and
`""` are falsy, everything else is truthy. -/
def jsTruthy : JSVal → Bool
  | .undef => false
  | .str s => !(s == "")
  | .num n => !(n == 0)

/-- The string carried by a `JSVal`, or `""` when it is not a string. Only
used on the post-validation path, where every required field is a string. -/
def JSVal.asStr : JSVal → String
  | .str s => s
  | _ => ""

/-- A thrown JavaScript error, restricted to the two properties the code
reads: the AWS SDK `code` string and the `message` string. A plain
`TypeError` (for example from calling `.trim()` on a number) has no `code`. -/
structure JSErr where
  code : Option String
  message : Option String
deriving DecidableEq

/-- Truthiness of an optional JS string property: present and non-empty. -/
def jsOptTruthy : Option String → Bool
  | none => false
  | some s => !(s == "")

/-- JavaScript `String.prototype.trim`: the string with leading and trailing
whitespace removed. -/
def jsTrim (s : String) : String :=
  ⟨((s.data.dropWhile Char.isWhitespace).reverse.dropWhile Char.isWhitespace).reverse⟩

instance {ε α : Type} [DecidableEq ε] [DecidableEq α] : DecidableEq (Except ε α) :=
  fun x y =>
    match x, y with
    | .ok a, .ok b =>
      if h : a = b then isTrue (by rw [h])
      else isFalse (by intro hh; cases hh; exact h rfl)
    | .error a, .error b =>
      if h : a = b then isTrue (by rw [h])
      else isFalse (by intro hh; cases hh; exact h rfl)
    | .ok _, .error _ => isFalse (by intro h; cases h)
    | .error _, .ok _ => isFalse (by intro h; cases h)

/-! ### The validator's regular expressions

Each JS regex used by `validateRegistrationData` is translated to an
executable predicate over the string's character list that accepts exactly
the regex's language. -/

/-- A character admitted by the class `[^\s@]` of the email regex. -/
def isEmailChar (c : Char) : Bool := !c.isWhitespace && !(c == '@')

/-- The test `/^[^\s@]+@[^\s@]+\.[^\s@]+$/` of the source: one `@` splitting
the string into a non-empty local part and a domain that contains a dot with
at least one character on each side, no whitespace or further `@` anywhere. -/
def emailFormatOk (s : String) : Bool :=
  let cs := s.data
  match cs.findIdx? (· == '@') with
  | none => false
  | some i =>
    let a := cs.take i
    let rest := cs.drop (i + 1)
    !(a.isEmpty) && a.all (fun c => !c.isWhitespace) &&
      rest.all isEmailChar && (rest.drop 1).dropLast.contains '.'

/-- The test `/^[0-9]{9}[vVxX]?$/` of the source: exactly nine digits
followed by an optional trailing `v`, `V`, `x` or `X`. -/
def nicFormatOk (s : String) : Bool :=
  let cs := s.data
  (cs.length == 9 && cs.all (·.isDigit)) ||
    (cs.length == 10 && (cs.take 9).all (·.isDigit) &&
      match cs.getLast? with
      | some c => c == 'v' || c == 'V' || c == 'x' || c == 'X'
      | none => false)

/-- A character admitted by the class `[\d\s\-\(\)]` of the mobile regex. -/
def isPhoneChar (c : Char) : Bool :=
  c.isDigit || c.isWhitespace || c == '-' || c == '(' || c == ')'

/-- The test `/^\+?[\d\s\-\(\)]{10,}$/` of the source: an optional leading
`+` followed by at least ten characters drawn from digits, whitespace,
hyphens and parentheses. -/
def mobileFormatOk (s : String) : Bool :=
  let cs := s.data
  let rest := if cs.head? == some '+' then cs.drop 1 else cs
  decide (rest.length ≥ 10) && rest.all isPhoneChar

/-! ### The validator -/

/-- The parsed JSON body of a `POST /register` request, after the
destructuring at the top of the handler. The six required fields plus the
two optional photo fields. -/
structure RegBody where
  email : JSVal
  password : JSVal
  fullName : JSVal
  mobileNumber : JSVal
  nicNumber : JSVal
  role : JSVal
  nicPhotoBase64 : JSVal
  nicPhotoContentType : JSVal
deriving DecidableEq

/-- The `{isValid, errors}` object returned by `validateRegistrationData`. -/
structure ValidationResult where
  isValid : Bool
  errors : List String
deriving DecidableEq

/-- The `required` list of field names of `validateRegistrationData`. -/
def requiredFields : List String :=
  ["email", "password", "fullName", "mobileNumber", "nicNumber", "role"]

/-- Look a required field up in a request body by its JS property name. -/
def fieldVal (d : RegBody) : String → JSVal
  | "email" => d.email
  | "password" => d.password
  | "fullName" => d.fullName
  | "mobileNumber" => d.mobileNumber
  | "nicNumber" => d.nicNumber
  | "role" => d.role
  | _ => JSVal.undef

/-- One iteration of the `required.forEach` loop of the source:
`if (!data[field] || data[field].trim() === '') errors.push(...)`.
A falsy value short-circuits before `.trim()`; a truthy string is trimmed;
a truthy non-string has no `.trim` method, so a `TypeError` (which carries
no AWS `code`) is thrown. -/
def requiredCheck (name : String) (v : JSVal) : Except JSErr (List String) :=
  match v with
  | .undef => .ok [name ++ " is required"]
  | .str s =>
    if s == "" then .ok [name ++ " is required"]
    else .ok (if jsTrim s == "" then [name ++ " is required"] else [])
  | .num n =>
    if n == 0 then .ok [name ++ " is required"]
    else .error { code := none, message := none }

/-- One of the format checks guarded by `data.field && ...` in the source.
These checks run only after the `forEach` loop completed without throwing,
at which point every required field is either falsy (skipped by the guard)
or a string; a falsy string (`""`) is likewise skipped. -/
def fmtCheck (v : JSVal) (f : String → List String) : List String :=
  match v with
  | .str s => if s == "" then [] else f s
  | _ => []

/-- `validateRegistrationData` of the source: the `forEach` over the six
required fields (in order, any thrown `TypeError` aborting the whole
function), then the five format checks, collecting error messages in
source order. -/
def validateRegistrationData (d : RegBody) : Except JSErr ValidationResult :=
  match requiredCheck "email" d.email with
  | .error e => .error e
  | .ok e1 =>
  match requiredCheck "password" d.password with
  | .error e => .error e
  | .ok e2 =>
  match requiredCheck "fullName" d.fullName with
  | .error e => .error e
  | .ok e3 =>
  match requiredCheck "mobileNumber" d.mobileNumber with
  | .error e => .error e
  | .ok e4 =>
  match requiredCheck "nicNumber" d.nicNumber with
  | .error e => .error e
  | .ok e5 =>
  match requiredCheck "role" d.role with
  | .error e => .error e
  | .ok e6 =>
    let fmtEmail := fmtCheck d.email fun s =>
      if emailFormatOk s then [] else ["Invalid email format"]
    let fmtPassword := fmtCheck d.password fun s =>
      if s.length < 8 then ["Password must be at least 8 characters long"] else []
    let fmtRole := fmtCheck d.role fun s =>
      if s == "Buyer" || s == "Seller" then [] else ["Role must be either Buyer or Seller"]
    let fmtNic := fmtCheck d.nicNumber fun s =>
      if nicFormatOk s then [] else ["Invalid NIC number format"]
    let fmtMobile := fmtCheck d.mobileNumber fun s =>
      if mobileFormatOk s then [] else ["Invalid mobile number format"]
    let errors :=
      e1 ++ e2 ++ e3 ++ e4 ++ e5 ++ e6 ++
        fmtEmail ++ fmtPassword ++ fmtRole ++ fmtNic ++ fmtMobile
    .ok { isValid := errors.isEmpty, errors := errors }

/-- A field value of the shape JSON produces for a present-or-absent string
field: `undefined` or a string. -/
def strOrUndef (v : JSVal) : Prop := v = .undef ∨ ∃ s, v = .str s

/-- The source's notion of a missing required field: falsy, or a string
that trims to empty. -/
def jsMissing : JSVal → Bool
  | .undef => true
  | .str s => jsTrim s == ""
  | .num n => n == 0

/-! ### The registration handler -/

/-- The handler's environment-derived configuration: the resolved
`awsEndpoint` (LocalStack endpoint, if any), `S3_BUCKET`, and the two
Cognito group names (`BUYER_GROUP` / `SELLER_GROUP`). -/
structure Config where
  awsEndpoint : Option String
  s3Bucket : String
  buyerGroup : String
  sellerGroup : String

/-- The external calls the handler can issue, in the order the code makes
them: Cognito `adminCreateUser` and `adminSetUserPassword` (inside
`createCognitoUser`), `s3.upload` (inside `uploadNicPhoto`), `dynamodb.put`
(inside `storeUserInDynamoDB`) and Cognito `adminAddUserToGroup` (inside
`addUserToGroup`). -/
inductive ExtCall where
  | adminCreateUser
  | adminSetUserPassword
  | s3Upload
  | dynamoPut
  | adminAddUserToGroup
deriving DecidableEq

/-- The `result.User` object returned by `adminCreateUser`, restricted to
the one property the handler reads (`cognitoUser.UserSub`). -/
structure CognitoUser where
  UserSub : String
deriving DecidableEq

/-- An oracle fixing the outcome of each external call for one invocation:
either the call succeeds (with its result) or it rejects with a JS error. -/
structure ExtWorld where
  adminCreateUser : Except JSErr CognitoUser
  adminSetUserPassword : Except JSErr Unit
  s3Upload : Except JSErr Unit
  dynamoPut : Except JSErr Unit
  adminAddUserToGroup : Except JSErr Unit

/-- The item `storeUserInDynamoDB` passes to `dynamodb.put`. A JS `null`
document locator is modelled by `nicPhotoUrl = none`. -/
structure DynamoItem where
  userId : String
  email : String
  fullName : String
  mobileNumber : String
  nicNumber : String
  role : String
  nicPhotoUrl : Option String
  cognitoSub : String
  createdAt : String
  updatedAt : String
  isActive : Bool
  GSI1PK : String
  GSI1SK : String
  GSI2PK : String
  GSI2SK : String
deriving DecidableEq

/-- Build the DynamoDB item exactly as `storeUserInDynamoDB` does: both
timestamps from `createdAt`, and the GSI attributes derived from role,
email and userId. -/
def mkDynamoItem (userId email fullName mobileNumber nicNumber role : String)
    (nicPhotoUrl : Option String) (cognitoSub createdAt : String)
    (isActive : Bool) : DynamoItem :=
  { userId := userId, email := email, fullName := fullName,
    mobileNumber := mobileNumber, nicNumber := nicNumber, role := role,
    nicPhotoUrl := nicPhotoUrl, cognitoSub := cognitoSub,
    createdAt := createdAt, updatedAt := createdAt, isActive := isActive,
    GSI1PK := "USER#" ++ role, GSI1SK := createdAt,
    GSI2PK := "EMAIL#" ++ email, GSI2SK := userId }

/-- `getFileExtension` of the source: map a content type to an extension,
defaulting to `jpg`. -/
def getFileExtension (contentType : String) : String :=
  if contentType == "image/jpeg" then "jpg"
  else if contentType == "image/jpg" then "jpg"
  else if contentType == "image/png" then "png"
  else if contentType == "image/gif" then "gif"
  else if contentType == "image/webp" then "webp"
  else "jpg"

/-- The S3 object key built by `uploadNicPhoto`:
`nic-photos/${userId}/${Date.now()}.${ext}`. -/
def uploadKey (userId : String) (nowMillis : Nat) (contentType : String) : String :=
  "nic-photos/" ++ userId ++ "/" ++ toString nowMillis ++ "." ++ getFileExtension contentType

/-- The JS `replace(/\/$/, '')`: remove a single trailing slash. -/
def stripTrailingSlash (s : String) : String :=
  if s.endsWith "/" then ⟨s.data.dropLast⟩ else s

/-- The locator `uploadNicPhoto` returns once `s3.upload` succeeds: an HTTP
URL when an endpoint override is configured, an `s3://` URL otherwise. -/
def nicPhotoLocator (cfg : Config) (key : String) : String :=
  match cfg.awsEndpoint with
  | some base => stripTrailingSlash base ++ "/" ++ cfg.s3Bucket ++ "/" ++ key
  | none => "s3://" ++ cfg.s3Bucket ++ "/" ++ key

/-- The JSON bodies the handler serializes into its responses, one
constructor per literal object in the source. -/
inductive RespBody where
  | validationFailed (error : String) (details : List String)
  | registered (message userId email role : String) (requiresConfirmation : Bool)
  | simpleError (error message : String)
deriving DecidableEq

/-- An API Gateway response as built by `createResponse`. -/
structure Response where
  statusCode : Nat
  headers : List (String × String)
  body : RespBody
deriving DecidableEq

/-- The fixed header block of `createResponse`. -/
def corsHeaders : List (String × String) :=
  [("Content-Type", "application/json"),
   ("Access-Control-Allow-Origin", "*"),
   ("Access-Control-Allow-Headers", "Content-Type,X-Amz-Date,Authorization,X-Api-Key,X-Amz-Security-Token"),
   ("Access-Control-Allow-Methods", "POST,OPTIONS")]

/-- `createResponse` of the source. -/
def createResponse (statusCode : Nat) (body : RespBody) : Response :=
  { statusCode := statusCode, headers := corsHeaders, body := body }

/-- The handler's `catch` block: classify a thrown error by its `code` and
translate it to a fixed response, falling back to a 500. -/
def classifyError (e : JSErr) : Response :=
  if e.code == some "UsernameExistsException" then
    createResponse 409 (.simpleError "User already exists"
      "An account with this email already exists")
  else if e.code == some "InvalidPasswordException" then
    createResponse 400 (.simpleError "Invalid password"
      "Password does not meet requirements")
  else if e.code == some "InvalidParameterException" then
    createResponse 400 (.simpleError "Invalid parameters"
      "Please check your input data")
  else
    createResponse 500 (.simpleError "Internal server error"
      "Failed to register user")

/-- What one invocation did to the outside world: the external calls issued
(in order), the item passed to `dynamodb.put` (if that call was made), and
the group name passed to `adminAddUserToGroup` (if that call was made). -/
structure Trace where
  calls : List ExtCall
  putItem : Option DynamoItem
  groupAssigned : Option String
deriving DecidableEq

/-- The observable outcome of one handler invocation. -/
structure HandlerOut where
  response : Response
  trace : Trace
deriving DecidableEq

/-- Steps 1-4 of the handler after validation passed: `createCognitoUser`
(two Cognito calls), the conditional `uploadNicPhoto`, `storeUserInDynamoDB`
and `addUserToGroup`, threaded sequentially with the first rejection
aborting the rest (the `await` chain inside the handler's `try`). Returns
the success body or the thrown error, together with the trace. `userId` is
the generated uuid, `nowIso` the `new Date().toISOString()` value and
`nowMillis` the `Date.now()` value of the invocation. -/
def runSteps (cfg : Config) (b : RegBody) (w : ExtWorld)
    (userId nowIso : String) (nowMillis : Nat) :
    Except JSErr RespBody × Trace :=
  match w.adminCreateUser with
  | .error e => (.error e, { calls := [.adminCreateUser], putItem := none, groupAssigned := none })
  | .ok cognitoUser =>
  match w.adminSetUserPassword with
  | .error e =>
    (.error e, { calls := [.adminCreateUser, .adminSetUserPassword],
                 putItem := none, groupAssigned := none })
  | .ok _ =>
  let doUpload := jsTruthy b.nicPhotoBase64 && jsTruthy b.nicPhotoContentType
  let uploadStep : Except JSErr (Option String) × List ExtCall :=
    if doUpload then
      match b.nicPhotoBase64 with
      | .str _ =>
        match w.s3Upload with
        | .error e => (.error e, [ExtCall.s3Upload])
        | .ok _ =>
          (.ok (some (nicPhotoLocator cfg
              (uploadKey userId nowMillis b.nicPhotoContentType.asStr))),
           [ExtCall.s3Upload])
      | _ => (.error { code := none, message := none }, [])
    else (.ok none, [])
  match uploadStep with
  | (.error e, uploadCalls) =>
    (.error e, { calls := [.adminCreateUser, .adminSetUserPassword] ++ uploadCalls,
                 putItem := none, groupAssigned := none })
  | (.ok nicPhotoUrl, uploadCalls) =>
  let item := mkDynamoItem userId b.email.asStr b.fullName.asStr
      b.mobileNumber.asStr b.nicNumber.asStr b.role.asStr
      nicPhotoUrl cognitoUser.UserSub nowIso true
  match w.dynamoPut with
  | .error e =>
    (.error e, { calls := [.adminCreateUser, .adminSetUserPassword] ++ uploadCalls ++ [.dynamoPut],
                 putItem := some item, groupAssigned := none })
  | .ok _ =>
  let groupName := if b.role == JSVal.str "Buyer" then cfg.buyerGroup else cfg.sellerGroup
  match w.adminAddUserToGroup with
  | .error e =>
    (.error e,
     { calls := [.adminCreateUser, .adminSetUserPassword] ++ uploadCalls ++
         [.dynamoPut, .adminAddUserToGroup],
       putItem := some item, groupAssigned := some groupName })
  | .ok _ =>
    (.ok (.registered "User registered successfully" userId b.email.asStr b.role.asStr true),
     { calls := [.adminCreateUser, .adminSetUserPassword] ++ uploadCalls ++
         [.dynamoPut, .adminAddUserToGroup],
       putItem := some item, groupAssigned := some groupName })

/-- The Lambda handler on a parsed request body: validate (a thrown
`TypeError` lands in the `catch` block), return early on a failed
validation, otherwise run the four external steps and map their outcome —
the 201 success response, or the `catch` block's classification of the
thrown error. -/
def runHandler (cfg : Config) (b : RegBody) (w : ExtWorld)
    (userId nowIso : String) (nowMillis : Nat) : HandlerOut :=
  match validateRegistrationData b with
  | .error e =>
    { response := classifyError e,
      trace := { calls := [], putItem := none, groupAssigned := none } }
  | .ok validation =>
    if validation.isValid then
      match runSteps cfg b w userId nowIso nowMillis with
      | (.ok okBody, tr) => { response := createResponse 201 okBody, trace := tr }
      | (.error e, tr) => { response := classifyError e, trace := tr }
    else
      { response := createResponse 400 (.validationFailed "Validation failed" validation.errors),
        trace := { calls := [], putItem := none, groupAssigned := none } }

/-! ### The front-end session controller (`lib/auth-context.js`) -/

/-- The outcome every session-controller operation resolves to:
`{success: true, ...}` or `{success: false, error: message}`. -/
structure SessionResult where
  success : Bool
  error : Option String
deriving DecidableEq

/-- The `default` branch of `getErrorMessage`'s switch and its bottom
`return`: the raw `error.message` when it is truthy, otherwise the generic
sentence. -/
def rawMessageOr (e : JSErr) : String :=
  if jsOptTruthy e.message then e.message.getD ""
  else "An unexpected error occurred."

/-- `getErrorMessage` of the source: if `error.code` is truthy, the fixed
switch on the nine known Cognito codes with the raw-message fallback as
default; otherwise the raw-message fallback directly. -/
def getErrorMessage (e : JSErr) : String :=
  if jsOptTruthy e.code then
    let c := e.code.getD ""
    if c == "UserNotFoundException" then
      "User not found. Please check your email address."
    else if c == "NotAuthorizedException" then
      "Incorrect password. Please try again."
    else if c == "UserNotConfirmedException" then
      "Please confirm your email address before signing in."
    else if c == "UsernameExistsException" then
      "An account with this email already exists."
    else if c == "InvalidPasswordException" then
      "Password does not meet requirements."
    else if c == "InvalidParameterException" then
      "Invalid input. Please check your information."
    else if c == "CodeMismatchException" then
      "Invalid verification code. Please try again."
    else if c == "ExpiredCodeException" then
      "Verification code has expired. Please request a new one."
    else if c == "LimitExceededException" then
      "Too many attempts. Please try again later."
    else rawMessageOr e
  else rawMessageOr e

/-- The nine Cognito error codes of `getErrorMessage`'s lookup table. -/
def knownCognitoCodes : List String :=
  ["UserNotFoundException", "NotAuthorizedException", "UserNotConfirmedException",
   "UsernameExistsException", "InvalidPasswordException", "InvalidParameterException",
   "CodeMismatchException", "ExpiredCodeException", "LimitExceededException"]

/-- The user object `Auth.signIn` resolves to, restricted to the one
property `signIn` reads (`challengeName`). -/
structure SignInUser where
  challengeName : Option String
deriving DecidableEq

/-- The try/catch wrapper shared by `signUp`, `signOut`, `confirmSignUp`,
`resendConfirmationCode`, `forgotPassword`, `resetPassword` and
`updateUserProfile`: a resolved provider call yields `{success: true}`, a
rejected one is caught and yields `{success: false, error: message}` with
the translated message. -/
def wrapSessionOp (r : Except JSErr Unit) : SessionResult :=
  match r with
  | .ok _ => { success := true, error := none }
  | .error e => { success := false, error := some (getErrorMessage e) }

/-- `signIn` of the source: on a resolved `Auth.signIn`, a
`NEW_PASSWORD_REQUIRED` challenge throws a plain `Error` (no `code`) whose
message the catch block then translates; otherwise the operation resolves
successfully. A rejected `Auth.signIn` is caught and translated. The
internal `checkAuthState` call catches its own errors and never rejects, so
it cannot alter the outcome. -/
def signInOp (r : Except JSErr SignInUser) : SessionResult :=
  match r with
  | .error e => { success := false, error := some (getErrorMessage e) }
  | .ok u =>
    if u.challengeName == some "NEW_PASSWORD_REQUIRED" then
      { success := false,
        error := some (getErrorMessage
          { code := none, message := some "Password change required. Please contact support." }) }
    else { success := true, error := none }

/-! ### Sample inputs used by the witness theorems -/

/-- A configuration with the default group names and no endpoint override. -/
def sampleConfig : Config :=
  { awsEndpoint := none, s3Bucket := "gem-bucket",
    buyerGroup := "Buyers", sellerGroup := "Sellers" }

/-- A world in which every external call succeeds. -/
def allOkWorld : ExtWorld :=
  { adminCreateUser := .ok { UserSub := "sub-1" },
    adminSetUserPassword := .ok (), s3Upload := .ok (),
    dynamoPut := .ok (), adminAddUserToGroup := .ok () }

/-- The concrete valid Buyer request of the specification's test scenario,
with no document image. -/
def validBuyerBody : RegBody :=
  { email := .str "a@b.com", password := .str "Aa1!aaaa", fullName := .str "A B",
    mobileNumber := .str "+14155550100", nicNumber := .str "123456789V",
    role := .str "Buyer", nicPhotoBase64 := .undef, nicPhotoContentType := .undef }

/-- A request body with every field absent. -/
def emptyBody : RegBody :=
  { email := .undef, password := .undef, fullName := .undef,
    mobileNumber := .undef, nicNumber := .undef, role := .undef,
    nicPhotoBase64 := .undef, nicPhotoContentType := .undef }

example :
    validateRegistrationData validBuyerBody = .ok { isValid := true, errors := [] } := by
  decide

example :
    validateRegistrationData { validBuyerBody with nicNumber := .str "12345" }
      = .ok { isValid := false, errors := ["Invalid NIC number format"] } := by
  decide

/-! ### Claim C1 -/

/-- C1: for every registration request whose body fails server-side
validation, the handler returns a 400 response with error `Validation
failed` and the list of error details, and makes no external calls at all
(in particular none to the identity provider, document store or profile
store). -/
theorem validation_failure_returns_400_without_calls
    (cfg : Config) (b : RegBody) (w : ExtWorld) (userId nowIso : String)
    (nowMillis : Nat) (v : ValidationResult)
    (hv : validateRegistrationData b = .ok v) (hinvalid : v.isValid = false) :
    (runHandler cfg b w userId nowIso nowMillis).response
        = createResponse 400 (.validationFailed "Validation failed" v.errors)
      ∧ (runHandler cfg b w userId nowIso nowMillis).trace.calls = [] := by
  simp [runHandler, hv, hinvalid]

/-- Witness for C1 at the all-fields-missing request. -/
theorem validation_failure_returns_400_without_calls_witness :
    (runHandler sampleConfig emptyBody allOkWorld "uid-1" "2026-01-01" 0).response
        = createResponse 400 (.validationFailed "Validation failed"
            ["email is required", "password is required", "fullName is required",
             "mobileNumber is required", "nicNumber is required", "role is required"])
      ∧ (runHandler sampleConfig emptyBody allOkWorld "uid-1" "2026-01-01" 0).trace.calls = [] :=
  validation_failure_returns_400_without_calls sampleConfig emptyBody allOkWorld
    "uid-1" "2026-01-01" 0
    { isValid := false,
      errors := ["email is required", "password is required", "fullName is required",
                 "mobileNumber is required", "nicNumber is required", "role is required"] }
    (by decide) rfl

/-! ### Claim C2 -/

/-- C2: for every valid registration request where the identity-provider
create step rejects with `UsernameExistsException`, the handler returns a
409 conflict and issues no document-store or profile-store call: the
failure short-circuits every remaining step, leaving `adminCreateUser` as
the only call made. -/
theorem username_exists_conflict_short_circuits
    (cfg : Config) (b : RegBody) (w : ExtWorld) (userId nowIso : String)
    (nowMillis : Nat) (v : ValidationResult) (e : JSErr)
    (hv : validateRegistrationData b = .ok v) (hvalid : v.isValid = true)
    (hcreate : w.adminCreateUser = .error e)
    (hcode : e.code = some "UsernameExistsException") :
    (runHandler cfg b w userId nowIso nowMillis).response.statusCode = 409
      ∧ (runHandler cfg b w userId nowIso nowMillis).response.body
          = .simpleError "User already exists" "An account with this email already exists"
      ∧ (runHandler cfg b w userId nowIso nowMillis).trace.calls = [.adminCreateUser]
      ∧ (runHandler cfg b w userId nowIso nowMillis).trace.putItem = none
      ∧ ExtCall.s3Upload ∉ (runHandler cfg b w userId nowIso nowMillis).trace.calls
      ∧ ExtCall.dynamoPut ∉ (runHandler cfg b w userId nowIso nowMillis).trace.calls := by
  simp [runHandler, hv, hvalid, runSteps, hcreate, classifyError, hcode, createResponse]

/-- Witness for C2 at the concrete valid Buyer request. -/
theorem username_exists_conflict_short_circuits_witness :
    (runHandler sampleConfig validBuyerBody
        { allOkWorld with
            adminCreateUser := .error { code := some "UsernameExistsException", message := none } }
        "uid-1" "2026-01-01" 0).response.statusCode = 409
      ∧ (runHandler sampleConfig validBuyerBody
          { allOkWorld with
              adminCreateUser := .error { code := some "UsernameExistsException", message := none } }
          "uid-1" "2026-01-01" 0).response.body
          = .simpleError "User already exists" "An account with this email already exists"
      ∧ (runHandler sampleConfig validBuyerBody
          { allOkWorld with
              adminCreateUser := .error { code := some "UsernameExistsException", message := none } }
          "uid-1" "2026-01-01" 0).trace.calls = [.adminCreateUser]
      ∧ (runHandler sampleConfig validBuyerBody
          { allOkWorld with
              adminCreateUser := .error { code := some "UsernameExistsException", message := none } }
          "uid-1" "2026-01-01" 0).trace.putItem = none
      ∧ ExtCall.s3Upload ∉ (runHandler sampleConfig validBuyerBody
          { allOkWorld with
              adminCreateUser := .error { code := some "UsernameExistsException", message := none } }
          "uid-1" "2026-01-01" 0).trace.calls
      ∧ ExtCall.dynamoPut ∉ (runHandler sampleConfig validBuyerBody
          { allOkWorld with
              adminCreateUser := .error { code := some "UsernameExistsException", message := none } }
          "uid-1" "2026-01-01" 0).trace.calls :=
  username_exists_conflict_short_circuits sampleConfig validBuyerBody
    { allOkWorld with
        adminCreateUser := .error { code := some "UsernameExistsException", message := none } }
    "uid-1" "2026-01-01" 0 { isValid := true, errors := [] }
    { code := some "UsernameExistsException", message := none }
    (by decide) rfl rfl rfl

/-! ### Claim C8 -/

/-- Every branch of the handler builds its response through
`createResponse`, so the header block is always the fixed one. -/
theorem runHandler_headers (cfg : Config) (b : RegBody) (w : ExtWorld)
    (userId nowIso : String) (nowMillis : Nat) :
    (runHandler cfg b w userId nowIso nowMillis).response.headers = corsHeaders := by
  have hclass : ∀ e : JSErr, (classifyError e).headers = corsHeaders := by
    intro e
    unfold classifyError
    split_ifs <;> rfl
  unfold runHandler
  cases hvv : validateRegistrationData b with
  | error e => simpa using hclass e
  | ok v =>
    by_cases hval : v.isValid
    · rcases hrs : runSteps cfg b w userId nowIso nowMillis with ⟨r, tr⟩
      cases r with
      | ok okBody => simp [hval, hrs, createResponse]
      | error e => simp [hval, hrs]; exact hclass e
    · simp [hval, createResponse]

/-- C8: every response produced by the registration handler — success,
validation failure, conflict, bad request or internal error — carries the
permissive cross-origin headers and `Content-Type: application/json`. -/
theorem every_response_has_cors_and_json_headers
    (cfg : Config) (b : RegBody) (w : ExtWorld) (userId nowIso : String)
    (nowMillis : Nat) :
    (runHandler cfg b w userId nowIso nowMillis).response.headers = corsHeaders
      ∧ ("Content-Type", "application/json")
          ∈ (runHandler cfg b w userId nowIso nowMillis).response.headers
      ∧ ("Access-Control-Allow-Origin", "*")
          ∈ (runHandler cfg b w userId nowIso nowMillis).response.headers := by
  refine ⟨runHandler_headers cfg b w userId nowIso nowMillis, ?_, ?_⟩ <;>
    rw [runHandler_headers cfg b w userId nowIso nowMillis] <;> decide

/-! ### Claim C3 -/

/-- C3: every error raised by an external collaborator after validation
passes is classified by its error code: `UsernameExistsException` maps to
a 409 conflict, `InvalidPasswordException` and `InvalidParameterException`
to a 400, and any other error to a 500 internal error — the response body
is always one of the four fixed messages, never the raw error. -/
theorem collaborator_errors_classified_by_code
    (cfg : Config) (b : RegBody) (w : ExtWorld) (userId nowIso : String)
    (nowMillis : Nat) (v : ValidationResult) (e : JSErr)
    (hv : validateRegistrationData b = .ok v) (hvalid : v.isValid = true)
    (hsteps : (runSteps cfg b w userId nowIso nowMillis).1 = .error e) :
    (e.code = some "UsernameExistsException" →
        (runHandler cfg b w userId nowIso nowMillis).response.statusCode = 409
          ∧ (runHandler cfg b w userId nowIso nowMillis).response.body
              = .simpleError "User already exists" "An account with this email already exists")
      ∧ (e.code = some "InvalidPasswordException" →
          (runHandler cfg b w userId nowIso nowMillis).response.statusCode = 400
            ∧ (runHandler cfg b w userId nowIso nowMillis).response.body
                = .simpleError "Invalid password" "Password does not meet requirements")
      ∧ (e.code = some "InvalidParameterException" →
          (runHandler cfg b w userId nowIso nowMillis).response.statusCode = 400
            ∧ (runHandler cfg b w userId nowIso nowMillis).response.body
                = .simpleError "Invalid parameters" "Please check your input data")
      ∧ (e.code ≠ some "UsernameExistsException" →
          e.code ≠ some "InvalidPasswordException" →
          e.code ≠ some "InvalidParameterException" →
          (runHandler cfg b w userId nowIso nowMillis).response.statusCode = 500
            ∧ (runHandler cfg b w userId nowIso nowMillis).response.body
                = .simpleError "Internal server error" "Failed to register user") := by
  have hresp : (runHandler cfg b w userId nowIso nowMillis).response = classifyError e := by
    rcases hrs : runSteps cfg b w userId nowIso nowMillis with ⟨r, tr⟩
    rw [hrs] at hsteps
    simp at hsteps
    subst hsteps
    simp [runHandler, hv, hvalid, hrs]
  rw [hresp]
  refine ⟨fun h => ?_, fun h => ?_, fun h => ?_, fun h1 h2 h3 => ?_⟩ <;>
    simp [classifyError, createResponse, beq_iff_eq, *]

/-- Witness for C3: a valid request where the group-assignment call rejects
with an unclassified error code, landing on the 500 catch-all. -/
theorem collaborator_errors_classified_by_code_witness :
    (runHandler sampleConfig validBuyerBody
        { allOkWorld with
            adminAddUserToGroup := .error { code := some "ThrottlingException", message := none } }
        "uid-1" "2026-01-01" 0).response.statusCode = 500
      ∧ (runHandler sampleConfig validBuyerBody
          { allOkWorld with
              adminAddUserToGroup := .error { code := some "ThrottlingException", message := none } }
          "uid-1" "2026-01-01" 0).response.body
          = .simpleError "Internal server error" "Failed to register user" :=
  (collaborator_errors_classified_by_code sampleConfig validBuyerBody
      { allOkWorld with
          adminAddUserToGroup := .error { code := some "ThrottlingException", message := none } }
      "uid-1" "2026-01-01" 0 { isValid := true, errors := [] }
      { code := some "ThrottlingException", message := none }
      (by decide) rfl (by decide)).2.2.2
    (by decide) (by decide) (by decide)

/-! ### Claim C4 -/

/-- C4: for every valid registration request carrying no document image,
when all external calls succeed the handler returns 201 with
`requiresConfirmation: true` and the profile record persisted to the
profile store has a null document locator (`nicPhotoUrl = null`). -/
theorem no_image_success_persists_null_locator
    (cfg : Config) (b : RegBody) (w : ExtWorld) (userId nowIso : String)
    (nowMillis : Nat) (v : ValidationResult) (cu : CognitoUser)
    (hv : validateRegistrationData b = .ok v) (hvalid : v.isValid = true)
    (hnoimg : b.nicPhotoBase64 = .undef)
    (hc : w.adminCreateUser = .ok cu) (hs : w.adminSetUserPassword = .ok ())
    (hd : w.dynamoPut = .ok ()) (hg : w.adminAddUserToGroup = .ok ()) :
    (runHandler cfg b w userId nowIso nowMillis).response.statusCode = 201
      ∧ (runHandler cfg b w userId nowIso nowMillis).response.body
          = .registered "User registered successfully" userId b.email.asStr b.role.asStr true
      ∧ ∃ item, (runHandler cfg b w userId nowIso nowMillis).trace.putItem = some item
          ∧ item.nicPhotoUrl = none := by
  have hfalse : jsTruthy b.nicPhotoBase64 = false := by rw [hnoimg]; rfl
  refine ⟨?_, ?_, ?_⟩ <;>
    simp [runHandler, hv, hvalid, runSteps, hc, hs, hd, hg, hfalse, createResponse, mkDynamoItem]

/-- Witness for C4 at the concrete valid Buyer request with no image in an
all-success world. -/
theorem no_image_success_persists_null_locator_witness :
    (runHandler sampleConfig validBuyerBody allOkWorld "uid-1" "2026-01-01" 0).response.statusCode = 201
      ∧ (runHandler sampleConfig validBuyerBody allOkWorld "uid-1" "2026-01-01" 0).response.body
          = .registered "User registered successfully" "uid-1" "a@b.com" "Buyer" true
      ∧ ∃ item, (runHandler sampleConfig validBuyerBody allOkWorld "uid-1" "2026-01-01" 0).trace.putItem
            = some item
          ∧ item.nicPhotoUrl = none :=
  no_image_success_persists_null_locator sampleConfig validBuyerBody allOkWorld
    "uid-1" "2026-01-01" 0 { isValid := true, errors := [] } { UserSub := "sub-1" }
    (by decide) rfl rfl rfl rfl rfl rfl

/-! ### Claim C7 -/

/-- Whenever the group-assignment call is made, it carries exactly the
group name the source's conditional derives from the role. -/
theorem runSteps_groupAssigned_shape (cfg : Config) (b : RegBody) (w : ExtWorld)
    (userId nowIso : String) (nowMillis : Nat) :
    (runSteps cfg b w userId nowIso nowMillis).2.groupAssigned = none
      ∨ (runSteps cfg b w userId nowIso nowMillis).2.groupAssigned
          = some (if b.role == JSVal.str "Buyer" then cfg.buyerGroup else cfg.sellerGroup) := by
  unfold runSteps
  repeat' split
  all_goals try simp
  all_goals split <;> simp

/-- When every external call succeeds, the group-assignment call is made
and carries the role-derived group name. -/
theorem runSteps_groupAssigned_success (cfg : Config) (b : RegBody) (w : ExtWorld)
    (userId nowIso : String) (nowMillis : Nat) (cu : CognitoUser)
    (hb64 : strOrUndef b.nicPhotoBase64)
    (hc : w.adminCreateUser = .ok cu) (hs : w.adminSetUserPassword = .ok ())
    (hu : w.s3Upload = .ok ()) (hd : w.dynamoPut = .ok ())
    (hg : w.adminAddUserToGroup = .ok ()) :
    (runSteps cfg b w userId nowIso nowMillis).2.groupAssigned
      = some (if b.role == JSVal.str "Buyer" then cfg.buyerGroup else cfg.sellerGroup) := by
  rcases hb64 with hb | ⟨s, hb⟩
  · simp [runSteps, hb, hc, hs, hu, hd, hg, jsTruthy]
  · simp [runSteps, hb, hc, hs, hu, hd, hg, jsTruthy]
    split
    · rename_i heq
      split at heq <;> simp_all
    · simp

/-- On the post-validation path the handler's trace is the trace of the
four external steps. -/
theorem runHandler_trace_valid (cfg : Config) (b : RegBody) (w : ExtWorld)
    (userId nowIso : String) (nowMillis : Nat) (v : ValidationResult)
    (hv : validateRegistrationData b = .ok v) (hvalid : v.isValid = true) :
    (runHandler cfg b w userId nowIso nowMillis).trace
      = (runSteps cfg b w userId nowIso nowMillis).2 := by
  rcases hrs : runSteps cfg b w userId nowIso nowMillis with ⟨r, tr⟩
  cases r <;> simp [runHandler, hv, hvalid, hrs]

/-- C7: for every valid registration request, a Buyer is only ever added to
the buyer group (and is added to it when all steps succeed), and a Seller
only ever to the seller group — never the other way around. -/
theorem role_selects_matching_group
    (cfg : Config) (b : RegBody) (w : ExtWorld) (userId nowIso : String)
    (nowMillis : Nat) (v : ValidationResult)
    (hv : validateRegistrationData b = .ok v) (hvalid : v.isValid = true) :
    (b.role = .str "Buyer" →
        (runHandler cfg b w userId nowIso nowMillis).trace.groupAssigned = none
          ∨ (runHandler cfg b w userId nowIso nowMillis).trace.groupAssigned
              = some cfg.buyerGroup)
      ∧ (b.role = .str "Seller" →
          (runHandler cfg b w userId nowIso nowMillis).trace.groupAssigned = none
            ∨ (runHandler cfg b w userId nowIso nowMillis).trace.groupAssigned
                = some cfg.sellerGroup)
      ∧ (∀ cu, strOrUndef b.nicPhotoBase64 →
          w.adminCreateUser = .ok cu → w.adminSetUserPassword = .ok () →
          w.s3Upload = .ok () → w.dynamoPut = .ok () → w.adminAddUserToGroup = .ok () →
          (b.role = .str "Buyer" →
              (runHandler cfg b w userId nowIso nowMillis).trace.groupAssigned
                = some cfg.buyerGroup)
            ∧ (b.role = .str "Seller" →
                (runHandler cfg b w userId nowIso nowMillis).trace.groupAssigned
                  = some cfg.sellerGroup)) := by
  rw [runHandler_trace_valid cfg b w userId nowIso nowMillis v hv hvalid]
  refine ⟨fun hrole => ?_, fun hrole => ?_,
    fun cu hb64 hc hs hu hd hg => ⟨fun hrole => ?_, fun hrole => ?_⟩⟩
  · rcases runSteps_groupAssigned_shape cfg b w userId nowIso nowMillis with h | h
    · exact Or.inl h
    · refine Or.inr ?_
      rw [h, hrole]
      simp
  · rcases runSteps_groupAssigned_shape cfg b w userId nowIso nowMillis with h | h
    · exact Or.inl h
    · refine Or.inr ?_
      rw [h, hrole]
      simp
  · rw [runSteps_groupAssigned_success cfg b w userId nowIso nowMillis cu hb64 hc hs hu hd hg, hrole]
    simp
  · rw [runSteps_groupAssigned_success cfg b w userId nowIso nowMillis cu hb64 hc hs hu hd hg, hrole]
    simp

/-- Witness for C7: the concrete Buyer registration in an all-success world
is assigned exactly the buyer group. -/
theorem role_selects_matching_group_witness :
    (runHandler sampleConfig validBuyerBody allOkWorld "uid-1" "2026-01-01" 0).trace.groupAssigned
      = some sampleConfig.buyerGroup :=
  ((role_selects_matching_group sampleConfig validBuyerBody allOkWorld "uid-1" "2026-01-01" 0
      { isValid := true, errors := [] } (by decide) rfl).2.2
    { UserSub := "sub-1" } (Or.inl rfl) rfl rfl rfl rfl rfl).1 rfl

/-! ### Claim C9 -/

/-- Any error thrown out of the `forEach` loop is the codeless
`TypeError` from calling `.trim()` on a non-string. -/
theorem requiredCheck_error_code (n : String) (v : JSVal) (e : JSErr)
    (h : requiredCheck n v = .error e) : e = { code := none, message := none } := by
  cases v with
  | undef => simp [requiredCheck] at h
  | str s =>
    simp only [requiredCheck] at h
    split_ifs at h
  | num k =>
    simp only [requiredCheck] at h
    split_ifs at h
    simp_all

/-- A numeric required field can only pass the `forEach` check by being
falsy (zero): a truthy number throws. -/
theorem requiredCheck_num_ok (n : String) (k : Int) (l : List String)
    (h : requiredCheck n (.num k) = .ok l) : k = 0 := by
  simp only [requiredCheck] at h
  split_ifs at h with hc
  exact beq_iff_eq.mp hc

/-- If the validator returns normally, every one of the six `forEach`
iterations returned normally. -/
theorem validate_ok_checks (d : RegBody) (v : ValidationResult)
    (h : validateRegistrationData d = .ok v) :
    (∃ l, requiredCheck "email" d.email = .ok l)
      ∧ (∃ l, requiredCheck "password" d.password = .ok l)
      ∧ (∃ l, requiredCheck "fullName" d.fullName = .ok l)
      ∧ (∃ l, requiredCheck "mobileNumber" d.mobileNumber = .ok l)
      ∧ (∃ l, requiredCheck "nicNumber" d.nicNumber = .ok l)
      ∧ (∃ l, requiredCheck "role" d.role = .ok l) := by
  unfold validateRegistrationData at h
  cases h1 : requiredCheck "email" d.email with
  | error e => rw [h1] at h; exact absurd h (by simp)
  | ok l1 =>
  rw [h1] at h
  cases h2 : requiredCheck "password" d.password with
  | error e => rw [h2] at h; exact absurd h (by simp)
  | ok l2 =>
  rw [h2] at h
  cases h3 : requiredCheck "fullName" d.fullName with
  | error e => rw [h3] at h; exact absurd h (by simp)
  | ok l3 =>
  rw [h3] at h
  cases h4 : requiredCheck "mobileNumber" d.mobileNumber with
  | error e => rw [h4] at h; exact absurd h (by simp)
  | ok l4 =>
  rw [h4] at h
  cases h5 : requiredCheck "nicNumber" d.nicNumber with
  | error e => rw [h5] at h; exact absurd h (by simp)
  | ok l5 =>
  rw [h5] at h
  cases h6 : requiredCheck "role" d.role with
  | error e => rw [h6] at h; exact absurd h (by simp)
  | ok l6 =>
  exact ⟨⟨l1, rfl⟩, ⟨l2, rfl⟩, ⟨l3, rfl⟩, ⟨l4, rfl⟩, ⟨l5, rfl⟩, ⟨l6, rfl⟩⟩

/-- If the validator throws, what it throws is the codeless `TypeError`. -/
theorem validate_error_shape (d : RegBody) (e : JSErr)
    (h : validateRegistrationData d = .error e) : e = { code := none, message := none } := by
  unfold validateRegistrationData at h
  cases h1 : requiredCheck "email" d.email with
  | error e1 => rw [h1] at h; simp at h; rw [← h]; exact requiredCheck_error_code _ _ _ h1
  | ok l1 =>
  rw [h1] at h
  cases h2 : requiredCheck "password" d.password with
  | error e2 => rw [h2] at h; simp at h; rw [← h]; exact requiredCheck_error_code _ _ _ h2
  | ok l2 =>
  rw [h2] at h
  cases h3 : requiredCheck "fullName" d.fullName with
  | error e3 => rw [h3] at h; simp at h; rw [← h]; exact requiredCheck_error_code _ _ _ h3
  | ok l3 =>
  rw [h3] at h
  cases h4 : requiredCheck "mobileNumber" d.mobileNumber with
  | error e4 => rw [h4] at h; simp at h; rw [← h]; exact requiredCheck_error_code _ _ _ h4
  | ok l4 =>
  rw [h4] at h
  cases h5 : requiredCheck "nicNumber" d.nicNumber with
  | error e5 => rw [h5] at h; simp at h; rw [← h]; exact requiredCheck_error_code _ _ _ h5
  | ok l5 =>
  rw [h5] at h
  cases h6 : requiredCheck "role" d.role with
  | error e6 => rw [h6] at h; simp at h; rw [← h]; exact requiredCheck_error_code _ _ _ h6
  | ok l6 =>
  rw [h6] at h
  exact absurd h (by simp)

/-- C9: a required field that is present but a truthy non-string (for
example a number) makes the validator's `.trim()` call throw a codeless
`TypeError`; the handler's catch-all turns this into a 500 internal-error
response rather than a 400 validation failure, and no external call is
made. -/
theorem truthy_nonstring_field_yields_500_no_calls
    (cfg : Config) (b : RegBody) (w : ExtWorld) (userId nowIso : String)
    (nowMillis : Nat) (f : String) (k : Int)
    (hf : f ∈ requiredFields) (hk : k ≠ 0) (hfield : fieldVal b f = .num k) :
    validateRegistrationData b = .error { code := none, message := none }
      ∧ (runHandler cfg b w userId nowIso nowMillis).response.statusCode = 500
      ∧ (runHandler cfg b w userId nowIso nowMillis).response.body
          = .simpleError "Internal server error" "Failed to register user"
      ∧ (runHandler cfg b w userId nowIso nowMillis).trace.calls = [] := by
  have hthrow : validateRegistrationData b = .error { code := none, message := none } := by
    cases hcase : validateRegistrationData b with
    | error e => rw [validate_error_shape b e hcase]
    | ok v =>
      exfalso
      obtain ⟨c1, c2, c3, c4, c5, c6⟩ := validate_ok_checks b v hcase
      simp only [requiredFields, List.mem_cons, List.not_mem_nil, or_false] at hf
      rcases hf with rfl | rfl | rfl | rfl | rfl | rfl
      · obtain ⟨l, hl⟩ := c1
        simp only [fieldVal] at hfield
        rw [hfield] at hl
        exact hk (requiredCheck_num_ok _ _ _ hl)
      · obtain ⟨l, hl⟩ := c2
        simp only [fieldVal] at hfield
        rw [hfield] at hl
        exact hk (requiredCheck_num_ok _ _ _ hl)
      · obtain ⟨l, hl⟩ := c3
        simp only [fieldVal] at hfield
        rw [hfield] at hl
        exact hk (requiredCheck_num_ok _ _ _ hl)
      · obtain ⟨l, hl⟩ := c4
        simp only [fieldVal] at hfield
        rw [hfield] at hl
        exact hk (requiredCheck_num_ok _ _ _ hl)
      · obtain ⟨l, hl⟩ := c5
        simp only [fieldVal] at hfield
        rw [hfield] at hl
        exact hk (requiredCheck_num_ok _ _ _ hl)
      · obtain ⟨l, hl⟩ := c6
        simp only [fieldVal] at hfield
        rw [hfield] at hl
        exact hk (requiredCheck_num_ok _ _ _ hl)
  refine ⟨hthrow, ?_, ?_, ?_⟩ <;>
    simp [runHandler, hthrow, classifyError, createResponse]

/-- Witness for C9: a request whose role is the number 5 lands on the 500
catch-all with no external calls. -/
theorem truthy_nonstring_field_yields_500_no_calls_witness :
    validateRegistrationData { emptyBody with role := .num 5 }
        = .error { code := none, message := none }
      ∧ (runHandler sampleConfig { emptyBody with role := .num 5 } allOkWorld
          "uid-1" "2026-01-01" 0).response.statusCode = 500
      ∧ (runHandler sampleConfig { emptyBody with role := .num 5 } allOkWorld
          "uid-1" "2026-01-01" 0).response.body
          = .simpleError "Internal server error" "Failed to register user"
      ∧ (runHandler sampleConfig { emptyBody with role := .num 5 } allOkWorld
          "uid-1" "2026-01-01" 0).trace.calls = [] :=
  truthy_nonstring_field_yields_500_no_calls sampleConfig { emptyBody with role := .num 5 }
    allOkWorld "uid-1" "2026-01-01" 0 "role" 5 (by decide) (by decide) rfl

/-! ### Claim C5 -/

/-- On a string field the `forEach` check never throws and pushes the
required-field message exactly when the string is empty or all
whitespace. -/
theorem requiredCheck_str (n s : String) :
    requiredCheck n (.str s)
      = .ok (if s == "" then [n ++ " is required"]
             else if jsTrim s == "" then [n ++ " is required"] else []) := by
  simp only [requiredCheck]
  split_ifs <;> rfl

/-- Membership in an if-then-else list, case by case. -/
theorem mem_ite_list (c : Prop) [Decidable c] (x : String) (l1 l2 : List String) :
    x ∈ (if c then l1 else l2) ↔ (c ∧ x ∈ l1) ∨ (¬c ∧ x ∈ l2) := by
  split_ifs with h <;> simp [h]

/-- Membership in a guarded format check: only a truthy string field
contributes, through the check's own message list. -/
theorem mem_fmtCheck_iff (x : String) (v : JSVal) (f : String → List String) :
    x ∈ fmtCheck v f ↔ ∃ s, v = .str s ∧ (s == "") = false ∧ x ∈ f s := by
  cases v with
  | undef => simp [fmtCheck]
  | num n => simp [fmtCheck]
  | str s =>
    simp only [fmtCheck]
    split_ifs with h
    · simp only [beq_iff_eq] at h
      subst h
      simp
    · simp only [beq_iff_eq] at h
      simp [h, beq_eq_false_iff_ne]

/-- C5: for a registration request whose required fields are all strings
(the nicNumber non-empty), the validator flags `nicNumber` — pushes
`Invalid NIC number format` — exactly when the nicNumber does not consist
of nine digits followed by an optional trailing V or X in either case. -/
theorem nic_flagged_iff_format_invalid
    (b : RegBody) (email pw fullName mobile nic role : String)
    (he : b.email = .str email) (hp : b.password = .str pw)
    (hfn : b.fullName = .str fullName) (hm : b.mobileNumber = .str mobile)
    (hn : b.nicNumber = .str nic) (hr : b.role = .str role)
    (hnic : nic ≠ "") :
    ∃ v, validateRegistrationData b = .ok v
      ∧ ("Invalid NIC number format" ∈ v.errors ↔ nicFormatOk nic = false) := by
  simp only [validateRegistrationData, he, hp, hfn, hm, hn, hr, requiredCheck_str, fmtCheck]
  refine ⟨_, rfl, ?_⟩
  by_cases hfmt : nicFormatOk nic
  · simp [hfmt, mem_ite_list, List.mem_append, hnic, beq_iff_eq]
  · simp [hfmt, mem_ite_list, List.mem_append, hnic, beq_iff_eq]

/-- Witness for C5 at a malformed nicNumber (`12345`). -/
theorem nic_flagged_iff_format_invalid_witness :
    ∃ v, validateRegistrationData
          { email := .str "a@b.com", password := .str "Aa1!aaaa", fullName := .str "A B",
            mobileNumber := .str "+14155550100", nicNumber := .str "12345",
            role := .str "Buyer", nicPhotoBase64 := .undef, nicPhotoContentType := .undef }
        = .ok v
      ∧ ("Invalid NIC number format" ∈ v.errors ↔ nicFormatOk "12345" = false) :=
  nic_flagged_iff_format_invalid
    { email := .str "a@b.com", password := .str "Aa1!aaaa", fullName := .str "A B",
      mobileNumber := .str "+14155550100", nicNumber := .str "12345",
      role := .str "Buyer", nicPhotoBase64 := .undef, nicPhotoContentType := .undef }
    "a@b.com" "Aa1!aaaa" "A B" "+14155550100" "12345" "Buyer"
    rfl rfl rfl rfl rfl rfl (by decide)

/-! ### Claim C6 -/

/-- On a string-or-undefined field the `forEach` check never throws and
pushes the required-field message exactly when the field is missing. -/
theorem requiredCheck_ok_of (n : String) (v : JSVal) (h : strOrUndef v) :
    requiredCheck n v
      = .ok (if jsMissing v then [n ++ " is required"] else []) := by
  rcases h with rfl | ⟨s, rfl⟩
  · simp [requiredCheck, jsMissing]
  · by_cases hs : s = ""
    · subst hs
      simp [requiredCheck, jsMissing, jsTrim]
    · simp [requiredCheck, jsMissing, hs, beq_eq_false_iff_ne]

/-- C6: for every registration request whose required fields are strings or
absent, the validator returns normally, its error list contains
`<field> is required` exactly for the missing fields (so every violated
required-field rule is reported, independent of check order), and the list
is non-empty as soon as some required field is missing. The validator is a
pure function of the request body, so determinism is inherent. -/
theorem validator_reports_each_missing_field
    (b : RegBody)
    (hall : ∀ f ∈ requiredFields, strOrUndef (fieldVal b f)) :
    ∃ v, validateRegistrationData b = .ok v
      ∧ (∀ f ∈ requiredFields,
            ((f ++ " is required") ∈ v.errors ↔ jsMissing (fieldVal b f) = true))
      ∧ ((∃ f ∈ requiredFields, jsMissing (fieldVal b f) = true) → v.errors ≠ []) := by
  have h1 : strOrUndef b.email := hall "email" (by simp [requiredFields])
  have h2 : strOrUndef b.password := hall "password" (by simp [requiredFields])
  have h3 : strOrUndef b.fullName := hall "fullName" (by simp [requiredFields])
  have h4 : strOrUndef b.mobileNumber := hall "mobileNumber" (by simp [requiredFields])
  have h5 : strOrUndef b.nicNumber := hall "nicNumber" (by simp [requiredFields])
  have h6 : strOrUndef b.role := hall "role" (by simp [requiredFields])
  simp only [validateRegistrationData,
    requiredCheck_ok_of "email" b.email h1,
    requiredCheck_ok_of "password" b.password h2,
    requiredCheck_ok_of "fullName" b.fullName h3,
    requiredCheck_ok_of "mobileNumber" b.mobileNumber h4,
    requiredCheck_ok_of "nicNumber" b.nicNumber h5,
    requiredCheck_ok_of "role" b.role h6]
  refine ⟨_, rfl, ?_, ?_⟩
  · intro f hf
    simp only [requiredFields, List.mem_cons, List.not_mem_nil, or_false] at hf
    rcases hf with rfl | rfl | rfl | rfl | rfl | rfl <;>
      simp [fieldVal, List.mem_append, mem_ite_list, mem_fmtCheck_iff]
  · rintro ⟨f, hf, hm⟩
    simp only [requiredFields, List.mem_cons, List.not_mem_nil, or_false] at hf
    rcases hf with rfl | rfl | rfl | rfl | rfl | rfl
    · simp only [fieldVal] at hm
      exact List.ne_nil_of_mem (show ("email" ++ " is required") ∈ _ from by
        simp [List.mem_append, mem_ite_list, hm])
    · simp only [fieldVal] at hm
      exact List.ne_nil_of_mem (show ("password" ++ " is required") ∈ _ from by
        simp [List.mem_append, mem_ite_list, hm])
    · simp only [fieldVal] at hm
      exact List.ne_nil_of_mem (show ("fullName" ++ " is required") ∈ _ from by
        simp [List.mem_append, mem_ite_list, hm])
    · simp only [fieldVal] at hm
      exact List.ne_nil_of_mem (show ("mobileNumber" ++ " is required") ∈ _ from by
        simp [List.mem_append, mem_ite_list, hm])
    · simp only [fieldVal] at hm
      exact List.ne_nil_of_mem (show ("nicNumber" ++ " is required") ∈ _ from by
        simp [List.mem_append, mem_ite_list, hm])
    · simp only [fieldVal] at hm
      exact List.ne_nil_of_mem (show ("role" ++ " is required") ∈ _ from by
        simp [List.mem_append, mem_ite_list, hm])

/-- Witness for C6 at the all-fields-missing request. -/
theorem validator_reports_each_missing_field_witness :
    ∃ v, validateRegistrationData emptyBody = .ok v
      ∧ (∀ f ∈ requiredFields,
            ((f ++ " is required") ∈ v.errors ↔ jsMissing (fieldVal emptyBody f) = true))
      ∧ ((∃ f ∈ requiredFields, jsMissing (fieldVal emptyBody f) = true) → v.errors ≠ []) :=
  validator_reports_each_missing_field emptyBody (by
    intro f hf
    simp only [requiredFields, List.mem_cons, List.not_mem_nil, or_false] at hf
    rcases hf with rfl | rfl | rfl | rfl | rfl | rfl <;> exact Or.inl rfl)

/-! ### Claim C10 -/

/-- C10: every session-controller operation resolves to a `{success: true}`
or `{success: false, error: message}` outcome (the embedding is a total
function into `SessionResult`, so nothing escapes the operation's
boundary), and an error code outside the fixed nine-entry lookup table is
mapped to the provider's raw message when one exists, and to the generic
unexpected-error sentence otherwise. -/
theorem session_ops_resolve_with_fallback_messages :
    (∀ r : Except JSErr SignInUser,
        ((signInOp r).success = true ∧ (signInOp r).error = none)
          ∨ ((signInOp r).success = false ∧ ∃ m, (signInOp r).error = some m))
      ∧ (∀ r : Except JSErr Unit,
          ((wrapSessionOp r).success = true ∧ (wrapSessionOp r).error = none)
            ∨ ((wrapSessionOp r).success = false ∧ ∃ m, (wrapSessionOp r).error = some m))
      ∧ (∀ e : JSErr, e.code.getD "" ∉ knownCognitoCodes →
          getErrorMessage e
            = (if jsOptTruthy e.message then e.message.getD ""
               else "An unexpected error occurred.")) := by
  refine ⟨?_, ?_, ?_⟩
  · intro r
    cases r with
    | error e => exact Or.inr ⟨rfl, _, rfl⟩
    | ok u =>
      by_cases hch : u.challengeName == some "NEW_PASSWORD_REQUIRED"
      · refine Or.inr ?_
        simp [signInOp, hch]
      · refine Or.inl ?_
        simp [signInOp, hch]
  · intro r
    cases r with
    | error e => exact Or.inr ⟨rfl, _, rfl⟩
    | ok u => exact Or.inl ⟨rfl, rfl⟩
  · intro e he
    simp only [knownCognitoCodes, List.mem_cons, List.not_mem_nil, or_false, not_or] at he
    obtain ⟨n1, n2, n3, n4, n5, n6, n7, n8, n9⟩ := he
    by_cases hc : jsOptTruthy e.code
    · simp [getErrorMessage, rawMessageOr, hc, beq_eq_false_iff_ne, n1, n2, n3, n4, n5, n6, n7, n8, n9]
    · simp [getErrorMessage, rawMessageOr, hc]

/-- Witness for C10: an unmapped provider code falls back to the raw
message. -/
theorem session_ops_resolve_with_fallback_messages_witness :
    getErrorMessage { code := some "TooManyRequestsException", message := some "slow down" }
      = (if jsOptTruthy (some "slow down") then (some "slow down").getD ""
         else "An unexpected error occurred.") :=
  session_ops_resolve_with_fallback_messages.2.2
    { code := some "TooManyRequestsException", message := some "slow down" } (by decide)
